import Mathlib

/-!
Verification of the rank model, timeline reconstruction, tiered caches,
partner aggregation and session navigation of the TFT companion bot
(src/commands/tft-climb.js and the tft match-history command in the same
file). Every definition below is a shallow embedding of the corresponding
JavaScript, with JS numbers as Int (or Nat where the source value is a
placement count), JS Maps as association lists, and the fallible upstream
fetches as Option-valued oracles passed in explicitly.
-/

/-- Result shape of getTierFromTotalLP: the object with tier, rank and lp
returned at tft-climb.js:56 and 61. -/
structure RankInfo where
  tier : String
  rank : String
  lp : Int
deriving DecidableEq

/-- The RANK_TIERS table of tft-climb.js:26-37, in insertion order: each
entry is (tier name, base, divisions as (name, offset) in insertion order). -/
def RANK_TIERS : List (String × Int × List (String × Int)) :=
  [("IRON", 0, [("IV", 0), ("III", 100), ("II", 200), ("I", 300)]),
   ("BRONZE", 400, [("IV", 0), ("III", 100), ("II", 200), ("I", 300)]),
   ("SILVER", 800, [("IV", 0), ("III", 100), ("II", 200), ("I", 300)]),
   ("GOLD", 1200, [("IV", 0), ("III", 100), ("II", 200), ("I", 300)]),
   ("PLATINUM", 1600, [("IV", 0), ("III", 100), ("II", 200), ("I", 300)]),
   ("EMERALD", 2000, [("IV", 0), ("III", 100), ("II", 200), ("I", 300)]),
   ("DIAMOND", 2400, [("IV", 0), ("III", 100), ("II", 200), ("I", 300)]),
   ("MASTER", 2800, [("I", 0)]),
   ("GRANDMASTER", 2900, [("I", 0)]),
   ("CHALLENGER", 3000, [("I", 0)])]

/-- calculateTotalLP (tft-climb.js:39-45): base + division offset + lp, with
an unknown tier mapping to 0 and an unknown division contributing 0
(the JS "divisions[rank] || 0"). -/
def calculateTotalLP (tier rank : String) (lp : Int) : Int :=
  match RANK_TIERS.find? (fun e => e.1 == tier) with
  | none => 0
  | some e =>
      let divisionLP := ((e.2.2.find? (fun d => d.1 == rank)).map (fun d => d.2)).getD 0
      e.2.1 + divisionLP + lp

/-- Inner loop of getTierFromTotalLP (tft-climb.js:53-57): walk the reversed
division list, return the first division whose offset is ≤ lpInTier together
with the residual points. -/
def divisionLoop (lpInTier : Int) : List (String × Int) → Option (String × Int)
  | [] => none
  | (division, divLP) :: rest =>
      if lpInTier ≥ divLP then some (division, lpInTier - divLP)
      else divisionLoop lpInTier rest

/-- Outer loop of getTierFromTotalLP (tft-climb.js:48-60): walk tiers from
highest base to lowest; on a hit, clamp the residual with Math.min(lp, 99);
fall through to IRON IV 0 (tft-climb.js:61). -/
def tierLoop (totalLP : Int) : List (String × Int × List (String × Int)) → RankInfo
  | [] => ⟨"IRON", "IV", 0⟩
  | (tier, base, divs) :: rest =>
      if totalLP ≥ base then
        match divisionLoop (totalLP - base) divs.reverse with
        | some (division, lp) => ⟨tier, division, min lp 99⟩
        | none => tierLoop totalLP rest
      else tierLoop totalLP rest

/-- getTierFromTotalLP (tft-climb.js:47-62). -/
def getTierFromTotalLP (totalLP : Int) : RankInfo :=
  tierLoop totalLP RANK_TIERS.reverse

/-- A (tier, division) pair that appears in the RANK_TIERS table. -/
def validRankPair (tier rank : String) : Prop :=
  ∃ e ∈ RANK_TIERS, e.1 = tier ∧ ∃ d ∈ e.2.2, d.1 = rank

/-- Position of a tier name in the RANK_TIERS insertion order
(IRON = 0 … CHALLENGER = 9); misses map past the end. -/
def posOf (x : String) : List String → Nat
  | [] => 0
  | y :: rest => if y == x then 0 else posOf x rest + 1

def tierIndex (tier : String) : Nat :=
  posOf tier (RANK_TIERS.map (fun e => e.1))

def divIndex (division : String) : Nat :=
  posOf division ["IV", "III", "II", "I"]

/-- Lexicographic (tier, division, points) rank order on results of
getTierFromTotalLP: a is no higher a rank than b. -/
def rankLE (a b : RankInfo) : Prop :=
  tierIndex a.tier < tierIndex b.tier ∨
    (tierIndex a.tier = tierIndex b.tier ∧
      (divIndex a.rank < divIndex b.rank ∨
        (divIndex a.rank = divIndex b.rank ∧ a.lp ≤ b.lp)))

instance (a b : RankInfo) : Decidable (rankLE a b) := by
  unfold rankLE; infer_instance

/-- One qualifying Double Up match as consumed by the climb loop
(tft-climb.js:180-277): the requesting player's raw placement and the
match's game_datetime. -/
structure MatchRecord where
  placement : Nat
  timestamp : Int
deriving DecidableEq

/-- One element of climbData (tft-climb.js:167-175 and 256-266). -/
structure ClimbPoint where
  gameNumber : Nat
  totalLP : Int
  tier : String
  rank : String
  lp : Int
  placement : Option Nat
  lpChange : Option Int
  timestamp : Option Int
deriving DecidableEq

/-- The placement → lpChange table of tft-climb.js:241-250, indexed by the
team placement Math.ceil(placement / 2). -/
def lpChangeFor (teamPlacement : Nat) : Int :=
  if teamPlacement = 1 then -35
  else if teamPlacement = 2 then -25
  else if teamPlacement = 3 then -15
  else if teamPlacement = 4 then -10
  else if teamPlacement = 5 then 10
  else if teamPlacement = 6 then 15
  else if teamPlacement = 7 then 25
  else if teamPlacement = 8 then 35
  else 0

/-- The match loop of tft-climb.js:180-277 restricted to qualifying
matches: each match is unshifted in front of the accumulator with
previousLP = currentLP - lpChange, and processedGames counts up. -/
def climbLoop (currentLP : Int) (processed : Nat) (acc : List ClimbPoint) :
    List MatchRecord → List ClimbPoint
  | [] => acc
  | m :: rest =>
      let teamPlacement := (m.placement + 1) / 2
      let lpChange := lpChangeFor teamPlacement
      let previousLP := currentLP - lpChange
      let rankInfo := getTierFromTotalLP previousLP
      climbLoop previousLP (processed + 1)
        (⟨processed + 1, previousLP, rankInfo.tier, rankInfo.rank, rankInfo.lp,
          some teamPlacement, some lpChange, some m.timestamp⟩ :: acc) rest

/-- The renumbering pass of tft-climb.js:286-288: gameNumber := index. -/
def renumber (i : Nat) : List ClimbPoint → List ClimbPoint
  | [] => []
  | p :: rest => { p with gameNumber := i } :: renumber (i + 1) rest

/-- climbData as produced by tft-climb.js:161-288 for a given current-rank
anchor and the qualifying matches in fetch order: the anchor point is
unshifted first (tft-climb.js:167-175), the loop unshifts one point per
match, then the array is reversed (tft-climb.js:285) and renumbered. -/
def buildClimbData (anchorTier anchorRank : String) (anchorLP : Int)
    (ms : List MatchRecord) : List ClimbPoint :=
  let startLP := calculateTotalLP anchorTier anchorRank anchorLP
  renumber 0
    ((climbLoop startLP 0
        [⟨0, startLP, anchorTier, anchorRank, anchorLP, none, none, none⟩]
        ms).reverse)

/-- The loss counter of tft-climb.js:301: points whose placement is truthy
and ≥ 5. -/
def lossesCount (climbData : List ClimbPoint) : Nat :=
  (climbData.filter (fun d => decide (5 ≤ d.placement.getD 0))).length

/-- Map.set semantics on an association list: overwrite in place when the
key exists, append otherwise. -/
def mapSet {α : Type} (m : List (String × α)) (k : String) (v : α) :
    List (String × α) :=
  if (m.lookup k).isSome then m.map (fun e => if e.1 == k then (k, v) else e)
  else m ++ [(k, v)]

/-- A cache entry holding an opaque payload and its storedAt timestamp
(the value/timestamp objects stored in the summoner, match-detail and
canvas caches). -/
structure CacheRecord where
  data : String
  timestamp : Int
deriving DecidableEq

/-- An imageCache / iconCache entry (image, timestamp). -/
structure CachedImage where
  image : String
  timestamp : Int
deriving DecidableEq

def CACHE_TTL : Int := 5 * 60 * 1000

def MATCH_DATA_TTL : Int := 30 * 60 * 1000

def MATCH_DETAIL_TTL : Int := 15 * 60 * 1000

def IMAGE_CACHE_TTL : Int := 60 * 60 * 1000

def CANVAS_CACHE_TTL : Int := 30 * 60 * 1000

/-- loadImageWithCache (tft-stats command, lines 616-639; the iconCache
variant at tft-climb.js:9-23 is identical with its own TTL): return the
cached image if it is younger than the TTL, otherwise fall back to the
network load (modelled by the fetched oracle), caching a successful load. -/
def loadImageWithCache (imageCache : List (String × CachedImage)) (url : String)
    (now : Int) (fetched : Option String) :
    Option String × List (String × CachedImage) :=
  match imageCache.lookup url with
  | some cached =>
      if now - cached.timestamp < IMAGE_CACHE_TTL then (some cached.image, imageCache)
      else
        match fetched with
        | some image => (some image, mapSet imageCache url ⟨image, now⟩)
        | none => (none, imageCache)
  | none =>
      match fetched with
      | some image => (some image, mapSet imageCache url ⟨image, now⟩)
      | none => (none, imageCache)

/-- The match-detail cache read (lines 743-747): the cached record is used
only when now - timestamp < MATCH_DETAIL_TTL; otherwise the reader falls
through to a fresh fetch, i.e. treats the entry as absent. -/
def matchDetailCacheRead (cached : Option CacheRecord) (now : Int) : Option String :=
  match cached with
  | some c => if now - c.timestamp < MATCH_DETAIL_TTL then some c.data else none
  | none => none

/-- The pre-rendered canvas cache read (lines 901-906). -/
def canvasCacheRead (cached : Option CacheRecord) (now : Int) : Option String :=
  match cached with
  | some c => if now - c.timestamp < CANVAS_CACHE_TTL then some c.data else none
  | none => none

/-- The summoner/identity cache read (lines 673-675): the cached account is
reused unless it is missing or now - timestamp > CACHE_TTL (note the strict
>: an entry aged exactly CACHE_TTL is still used). -/
def summonerCacheRead (cached : Option CacheRecord) (now : Int) : Option String :=
  match cached with
  | some account => if now - account.timestamp > CACHE_TTL then none else some account.data
  | none => none

/-- The session object stored in matchDataCache (lines 812-823), restricted
to the fields navigation touches plus one representative payload field. -/
structure SessionData where
  matchIds : List String
  currentIndex : Int
  timestamp : Int
  summonerName : String
deriving DecidableEq

/-- The four ways handleButton (lines 834-882) answers a button click. -/
inductive ButtonOutcome where
  | invalidButtonData
  | sessionExpired
  | noMoreMatches
  | navigated (newIndex : Int)
deriving DecidableEq

/-- JS String.prototype.split with a single-character separator, on the
character list of the string. -/
def splitCharList (sep : Char) : List Char → List (List Char)
  | [] => [[]]
  | ch :: rest =>
      let r := splitCharList sep rest
      if ch == sep then [] :: r
      else
        match r with
        | [] => [[ch]]
        | g :: gs => (ch :: g) :: gs

/-- customId.split('_') of line 838. -/
def splitUnderscore (s : String) : List String :=
  (splitCharList '_' s.data).map (fun cs => String.mk cs)

/-- parts.pop() of line 848: the last segment is the action. -/
def buttonAction (customId : String) : String :=
  (splitUnderscore customId).getLastD ""

/-- parts.join('_') of line 849 after the pop: the session key. -/
def buttonDataKey (customId : String) : String :=
  String.intercalate "_" (splitUnderscore customId).dropLast

/-- newIndex computation of lines 863-865: prev decrements, next
increments, anything else leaves the cursor. -/
def newIndexFor (action : String) (currentIndex : Int) : Int :=
  if action = "prev" then currentIndex - 1
  else if action = "next" then currentIndex + 1
  else currentIndex

/-- handleButton (lines 834-882) as a pure function from the session cache,
the button customId and the current time to an outcome and the updated
cache. The session read at line 853 performs no TTL comparison. -/
def handleButton (cache : List (String × SessionData)) (customId : String)
    (now : Int) : ButtonOutcome × List (String × SessionData) :=
  if (splitUnderscore customId).length < 3 then (.invalidButtonData, cache)
  else
    match cache.lookup (buttonDataKey customId) with
    | none => (.sessionExpired, cache)
    | some sessionData =>
        if newIndexFor (buttonAction customId) sessionData.currentIndex < 0 ∨
            (sessionData.matchIds.length : Int) ≤
              newIndexFor (buttonAction customId) sessionData.currentIndex then
          (.noMoreMatches, cache)
        else
          (.navigated (newIndexFor (buttonAction customId) sessionData.currentIndex),
           mapSet cache (buttonDataKey customId)
             { sessionData with
                currentIndex := newIndexFor (buttonAction customId) sessionData.currentIndex,
                timestamp := now })

/-- One duoPartners entry (lines 222-226). -/
structure DuoPartner where
  name : String
  iconId : Int
  count : Int
deriving DecidableEq

/-- The per-match duo-partner block of tft-climb.js:206-237: if the partner
key is not yet in the map, attempt the two identity fetches (summoner then
account) and insert the entry with count 0 only when both succeed; then, if
the key is present, increment its count. The second component logs one
entry per attempted fetch. -/
def processMatchPartner (fetchSummoner : String → Option Int)
    (fetchAccount : String → Option (String × String))
    (st : List (String × DuoPartner) × List String) (partnerOpt : Option String) :
    List (String × DuoPartner) × List String :=
  match partnerOpt with
  | none => st
  | some partnerKey =>
      let afterFetch :=
        if (st.1.lookup partnerKey).isSome then st
        else
          match fetchSummoner partnerKey with
          | none => (st.1, st.2 ++ [partnerKey])
          | some iconId =>
              match fetchAccount partnerKey with
              | none => (st.1, st.2 ++ [partnerKey])
              | some acct =>
                  (mapSet st.1 partnerKey ⟨acct.1 ++ "#" ++ acct.2, iconId, 0⟩,
                   st.2 ++ [partnerKey])
      match afterFetch.1.lookup partnerKey with
      | some dp => (mapSet afterFetch.1 partnerKey { dp with count := dp.count + 1 }, afterFetch.2)
      | none => afterFetch

/-- Folding the partner block over the per-match partner search results, in
match-processing order, starting from the empty duoPartners map. -/
def aggregatePartners (fetchSummoner : String → Option Int)
    (fetchAccount : String → Option (String × String))
    (partners : List (Option String)) :
    List (String × DuoPartner) × List String :=
  partners.foldl (processMatchPartner fetchSummoner fetchAccount) ([], [])

/-- Identity oracle for the aggregation scenario: both fetches succeed for
partners X and Y. -/
def fetchSummonerOK : String → Option Int :=
  fun pk => if pk = "X" then some 10 else if pk = "Y" then some 20 else none

def fetchAccountOK : String → Option (String × String) :=
  fun pk =>
    if pk = "X" then some ("XName", "NA1")
    else if pk = "Y" then some ("YName", "NA1") else none

/-- Identity oracle where the summoner fetch for partner X fails. -/
def fetchSummonerFailX : String → Option Int :=
  fun pk => if pk = "Y" then some 20 else none

/-- A fresh five-match session as created at lines 812-823. -/
def navCache0 : List (String × SessionData) :=
  [("tft_u_1", ⟨["m1", "m2", "m3", "m4", "m5"], 0, 1000, "Kuromi"⟩)]

def navCache1 : List (String × SessionData) :=
  (handleButton navCache0 "tft_u_1_next" 2001).2

def navCache2 : List (String × SessionData) :=
  (handleButton navCache1 "tft_u_1_next" 2002).2

def navCache3 : List (String × SessionData) :=
  (handleButton navCache2 "tft_u_1_next" 2003).2

def navCache4 : List (String × SessionData) :=
  (handleButton navCache3 "tft_u_1_next" 2004).2

/-- A two-match session whose entry is older than the session TTL. -/
def expiredSessionCache : List (String × SessionData) :=
  [("tft_u_1", ⟨["m1", "m2"], 0, 0, "Kuromi"⟩)]

/-- Two consecutive execute() invocations of the scenario in one process:
duoPartners is a local created fresh inside execute (tft-climb.js:163), so no
partner-identity state survives from one invocation to the next and each
invocation folds from the empty map; the process-level fetch log is the
concatenation of the per-invocation logs. -/
def twoInvocationFetchLog : List String :=
  (aggregatePartners fetchSummonerOK fetchAccountOK [some "X", some "Y", some "X"]).2 ++
    (aggregatePartners fetchSummonerOK fetchAccountOK [some "X", some "Y", some "X"]).2

/-- Claim C1 (code_bug evidence): with anchor GOLD II 40 (total LP 1440) and a
single qualifying outcome (raw placement 1), the reconstructed climbData is
[1440, 1475]: the anchor is the FIRST point and the derived start the LAST, so
the last point's totalLP is 1475, not toTotal(anchor) = 1440 as the claim
requires, and the single step difference is +35, not the outcome's lpChange
of -35. -/
theorem C1_backwards_eval :
    (buildClimbData "GOLD" "II" 40 [⟨1, 1000⟩]).map (fun pt => pt.totalLP) = [1440, 1475] ∧
    calculateTotalLP "GOLD" "II" 40 = 1440 ∧
    (buildClimbData "GOLD" "II" 40 [⟨1, 1000⟩]).getLast?.map (fun pt => pt.totalLP) ≠
      some (calculateTotalLP "GOLD" "II" 40) ∧
    (buildClimbData "GOLD" "II" 40 [⟨1, 1000⟩]).head?.map (fun pt => pt.totalLP) =
      some (calculateTotalLP "GOLD" "II" 40) := by
  decide

/-- Claim C3 (code_bug evidence): the placement → delta table maps the best
team placement 1 to -35, a negative delta, and is increasing (not
non-increasing) in placement on the reachable range 1..4: delta(1) < delta(2),
contradicting the spec's sign convention that a better placement yields a
positive, larger delta. -/
theorem C3_delta_eval :
    lpChangeFor 1 = -35 ∧ lpChangeFor 2 = -25 ∧ lpChangeFor 3 = -15 ∧
    lpChangeFor 4 = -10 ∧ ¬ 0 < lpChangeFor 1 ∧ lpChangeFor 1 < lpChangeFor 2 := by
  decide

/-- Claim C2 counterexample: MASTER I 150 is a valid RankPoint under the
claim's validity (apex points ≥ 100 allowed), but the round-trip returns
GRANDMASTER I 50, not MASTER I 150. -/
theorem C2_counterexample :
    validRankPair "MASTER" "I" ∧ calculateTotalLP "MASTER" "I" 150 = 2950 ∧
    getTierFromTotalLP (calculateTotalLP "MASTER" "I" 150) = ⟨"GRANDMASTER", "I", 50⟩ ∧
    getTierFromTotalLP (calculateTotalLP "MASTER" "I" 150) ≠ ⟨"MASTER", "I", 150⟩ := by
  refine ⟨?_, by decide, by decide, by decide⟩
  unfold validRankPair
  decide

/-- Claim C5 counterexample: the total 3500 falls in the CHALLENGER apex tier
with residual 3500 - 3000 = 500, but getTierFromTotalLP clamps the returned
points to 99 there as well, so apex points do not escape the Math.min clamp. -/
theorem C5_counterexample :
    getTierFromTotalLP 3500 = ⟨"CHALLENGER", "I", 99⟩ ∧
    (getTierFromTotalLP 3500).lp ≠ 3500 - 3000 := by
  decide

/-- Claim C6 amended: partner X in matches 1 and 3, partner Y in match 2, all
identity fetches succeeding: within the single execute() invocation exactly
two aggregates result, X with count 2 and Y with count 1, and the identity
fetch for X is attempted exactly once in that invocation (the fetch log is
[X, Y]). The memoization is scoped to the invocation, not the process:
duoPartners is created fresh per execute() call, so across two invocations in
the same process X is fetched twice. -/
theorem C6_memoized_scenario :
    aggregatePartners fetchSummonerOK fetchAccountOK [some "X", some "Y", some "X"] =
      ([("X", ⟨"XName#NA1", 10, 2⟩), ("Y", ⟨"YName#NA1", 20, 1⟩)], ["X", "Y"]) ∧
    twoInvocationFetchLog.count "X" = 2 := by
  decide

/-- Claim C6 counterexample: when the identity fetch for X fails, X is left
absent from the aggregate map (its two co-occurrences are not counted at all),
and the fetch for X is re-attempted on its second co-occurrence (log
[X, Y, X]), contradicting both the keep-under-opaque-id behaviour and the
at-most-once-per-process fetch the claim states. -/
theorem C6_counterexample :
    (aggregatePartners fetchSummonerFailX fetchAccountOK
        [some "X", some "Y", some "X"]).1.lookup "X" = none ∧
    (aggregatePartners fetchSummonerFailX fetchAccountOK
        [some "X", some "Y", some "X"]).2 = ["X", "Y", "X"] := by
  decide

/-- Claim C8 amended: from a fresh five-match session (cursor 0), previous
returns OutOfRange leaving the cursor at 0; FOUR consecutive next calls move
the cursor 0→1→2→3→4; the fifth and the sixth next both return OutOfRange
with the cursor staying at 4. -/
theorem C8_navigation_scenario :
    handleButton navCache0 "tft_u_1_prev" 2000 = (.noMoreMatches, navCache0) ∧
    (handleButton navCache0 "tft_u_1_next" 2001).1 = .navigated 1 ∧
    (handleButton navCache1 "tft_u_1_next" 2002).1 = .navigated 2 ∧
    (handleButton navCache2 "tft_u_1_next" 2003).1 = .navigated 3 ∧
    (handleButton navCache3 "tft_u_1_next" 2004).1 = .navigated 4 ∧
    (navCache4.lookup "tft_u_1").map (fun sd => sd.currentIndex) = some 4 ∧
    handleButton navCache4 "tft_u_1_next" 2005 = (.noMoreMatches, navCache4) ∧
    handleButton navCache4 "tft_u_1_next" 2006 = (.noMoreMatches, navCache4) := by
  decide

/-- Claim C8 counterexample: the FIFTH consecutive next call from the fresh
five-match session already returns OutOfRange without moving the cursor
(the cursor reaches 4 after only four calls), so it is not the case that five
next calls each move the cursor with only a sixth being refused. -/
theorem C8_counterexample :
    (handleButton navCache3 "tft_u_1_next" 2004).1 = .navigated 4 ∧
    handleButton navCache4 "tft_u_1_next" 2005 = (.noMoreMatches, navCache4) := by
  decide

/-- Claim C4 counterexample: a session entry aged MATCH_DATA_TTL + 1 ms
(≥ TTL, not yet swept) is still returned by the session read in handleButton:
the navigation succeeds instead of the entry being treated as absent. -/
theorem C4_counterexample :
    MATCH_DATA_TTL ≤ (1800001 : Int) - 0 ∧
    handleButton expiredSessionCache "tft_u_1_next" 1800001 =
      (.navigated 1, [("tft_u_1", ⟨["m1", "m2"], 1, 1800001, "Kuromi"⟩)]) := by
  decide

set_option maxRecDepth 10000 in
/-- Helper: the round-trip is exact on every table entry for points 0..99. -/
theorem roundTrip_table : ∀ e ∈ RANK_TIERS, ∀ d ∈ e.2.2, ∀ n : Nat, n < 100 →
    getTierFromTotalLP (calculateTotalLP e.1 d.1 (n : Int)) = ⟨e.1, d.1, (n : Int)⟩ := by
  decide

/-- Claim C2 amended: for every RankPoint whose (tier, division) pair is in
the RANK_TIERS table and whose points lie in 0..99 — in apex tiers as well —
the round-trip getTierFromTotalLP (calculateTotalLP r) returns exactly r.
(For apex points ≥ 100 the round-trip fails, see the counterexample.) -/
theorem C2_roundtrip_le99 (tier rank : String) (lp : Int)
    (hvalid : validRankPair tier rank) (h0 : 0 ≤ lp) (h99 : lp ≤ 99) :
    getTierFromTotalLP (calculateTotalLP tier rank lp) = ⟨tier, rank, lp⟩ := by
  obtain ⟨e, he, htier, d, hd, hrank⟩ := hvalid
  have key := roundTrip_table e he d hd lp.toNat (by omega)
  rw [htier, hrank, Int.toNat_of_nonneg h0] at key
  exact key

/-- Witness for C2_roundtrip_le99 at GOLD II 40. -/
theorem C2_roundtrip_le99_witness :
    validRankPair "GOLD" "II" ∧ (0 : Int) ≤ 40 ∧ (40 : Int) ≤ 99 ∧
    getTierFromTotalLP (calculateTotalLP "GOLD" "II" 40) = ⟨"GOLD", "II", 40⟩ :=
  ⟨by unfold validRankPair; decide, by decide, by decide,
   C2_roundtrip_le99 "GOLD" "II" 40 (by unfold validRankPair; decide) (by decide) (by decide)⟩

/-- Helper: every point the climb loop adds to the accumulator records the
team placement (raw placement + 1) / 2, which lies in 1..4 when every raw
placement lies in 1..8. -/
theorem climbLoop_placements (ms : List MatchRecord) :
    ∀ (cur : Int) (n : Nat) (acc : List ClimbPoint),
      (∀ m ∈ ms, 1 ≤ m.placement ∧ m.placement ≤ 8) →
      (∀ pt ∈ acc, ∀ p, pt.placement = some p → 1 ≤ p ∧ p ≤ 4) →
      ∀ pt ∈ climbLoop cur n acc ms, ∀ p, pt.placement = some p → 1 ≤ p ∧ p ≤ 4 := by
  induction ms with
  | nil =>
      intro cur n acc _ hacc pt hpt
      exact hacc pt hpt
  | cons m rest ih =>
      intro cur n acc hm hacc pt hpt
      simp only [climbLoop] at hpt
      refine ih _ _ _ (fun x hx => hm x (List.mem_cons_of_mem _ hx)) ?_ pt hpt
      intro q hq p hp
      rcases List.mem_cons.mp hq with hq1 | hq2
      · have hmp := hm m (List.mem_cons_self _ _)
        rw [hq1] at hp
        simp only [Option.some.injEq] at hp
        omega
      · exact hacc q hq2 p hp

/-- Helper: renumbering changes only gameNumber; each output point has the
placement of some input point. -/
theorem renumber_placements (l : List ClimbPoint) :
    ∀ (i : Nat) (pt : ClimbPoint), pt ∈ renumber i l →
      ∃ q ∈ l, pt.placement = q.placement := by
  induction l with
  | nil => intro i pt hpt; simp [renumber] at hpt
  | cons p rest ih =>
      intro i pt hpt
      simp only [renumber] at hpt
      rcases List.mem_cons.mp hpt with h1 | h2
      · exact ⟨p, List.mem_cons_self _ _, by rw [h1]⟩
      · obtain ⟨q, hq, hpq⟩ := ih (i + 1) pt h2
        exact ⟨q, List.mem_cons_of_mem _ hq, hpq⟩

/-- Claim C10: every non-anchor point of the reconstructed climb records the
team placement ceil(raw/2) ∈ 1..4 when raw placements lie in 1..8, and hence
the loss counter (placements ≥ 5) is 0 on every reconstructed timeline. -/
theorem C10_losses_zero (aT aR : String) (aLP : Int) (ms : List MatchRecord)
    (h : ∀ m ∈ ms, 1 ≤ m.placement ∧ m.placement ≤ 8) :
    (∀ pt ∈ buildClimbData aT aR aLP ms, ∀ p, pt.placement = some p → 1 ≤ p ∧ p ≤ 4) ∧
    lossesCount (buildClimbData aT aR aLP ms) = 0 := by
  have hmain : ∀ pt ∈ buildClimbData aT aR aLP ms, ∀ p, pt.placement = some p →
      1 ≤ p ∧ p ≤ 4 := by
    intro pt hpt p hp
    unfold buildClimbData at hpt
    obtain ⟨q, hq, hpq⟩ := renumber_placements _ _ _ hpt
    rw [hpq] at hp
    have hq2 := List.mem_reverse.mp hq
    refine climbLoop_placements ms _ _ _ h ?_ q hq2 p hp
    intro r hr pr hpr
    simp only [List.mem_singleton] at hr
    rw [hr] at hpr
    simp at hpr
  refine ⟨hmain, ?_⟩
  unfold lossesCount
  rw [List.length_eq_zero, List.filter_eq_nil_iff]
  intro a ha
  cases hpa : a.placement with
  | none => simp [hpa]
  | some p =>
      have := hmain a ha p hpa
      simp only [hpa, Option.getD_some, decide_eq_true_eq]
      omega

/-- Witness for C10_losses_zero on a concrete two-match history. -/
theorem C10_losses_zero_witness :
    (∀ m ∈ ([⟨3, 500⟩, ⟨8, 600⟩] : List MatchRecord),
        1 ≤ m.placement ∧ m.placement ≤ 8) ∧
    lossesCount (buildClimbData "GOLD" "II" 40 [⟨3, 500⟩, ⟨8, 600⟩]) = 0 :=
  ⟨by decide, (C10_losses_zero "GOLD" "II" 40 [⟨3, 500⟩, ⟨8, 600⟩] (by decide)).2⟩

/-- Helper: RANK_TIERS reversed, as walked by getTierFromTotalLP. -/
theorem rank_tiers_rev :
    RANK_TIERS.reverse =
      [("CHALLENGER", 3000, [("I", 0)]),
       ("GRANDMASTER", 2900, [("I", 0)]),
       ("MASTER", 2800, [("I", 0)]),
       ("DIAMOND", 2400, [("IV", 0), ("III", 100), ("II", 200), ("I", 300)]),
       ("EMERALD", 2000, [("IV", 0), ("III", 100), ("II", 200), ("I", 300)]),
       ("PLATINUM", 1600, [("IV", 0), ("III", 100), ("II", 200), ("I", 300)]),
       ("GOLD", 1200, [("IV", 0), ("III", 100), ("II", 200), ("I", 300)]),
       ("SILVER", 800, [("IV", 0), ("III", 100), ("II", 200), ("I", 300)]),
       ("BRONZE", 400, [("IV", 0), ("III", 100), ("II", 200), ("I", 300)]),
       ("IRON", 0, [("IV", 0), ("III", 100), ("II", 200), ("I", 300)])] := by
  rfl

/-- Helper: above the CHALLENGER base every total resolves to CHALLENGER I
with the residual clamped by Math.min at 99. -/
theorem chall_formula (t : Int) (h : 3000 ≤ t) :
    getTierFromTotalLP t = ⟨"CHALLENGER", "I", min (t - 3000) 99⟩ := by
  have h1 : t ≥ 3000 := h
  have h2 : t - 3000 ≥ (0 : Int) := by omega
  unfold getTierFromTotalLP
  rw [rank_tiers_rev]
  simp only [tierLoop, divisionLoop, List.reverse_cons, List.reverse_nil, List.nil_append,
    if_pos h1, if_pos h2]
  norm_num

/-- Helper: GRANDMASTER band, pointwise. -/
theorem gm_cases : ∀ n : Nat, n < 100 →
    getTierFromTotalLP (2900 + (n : Int)) = ⟨"GRANDMASTER", "I", (n : Int)⟩ := by
  decide

/-- Helper: MASTER band, pointwise. -/
theorem master_cases : ∀ n : Nat, n < 100 →
    getTierFromTotalLP (2800 + (n : Int)) = ⟨"MASTER", "I", (n : Int)⟩ := by
  decide

/-- Helper: GRANDMASTER band as a formula. -/
theorem gm_formula (t : Int) (h1 : 2900 ≤ t) (h2 : t < 3000) :
    getTierFromTotalLP t = ⟨"GRANDMASTER", "I", t - 2900⟩ := by
  have := gm_cases (t - 2900).toNat (by omega)
  rw [Int.toNat_of_nonneg (show (0 : Int) ≤ t - 2900 by omega)] at this
  rwa [show (2900 : Int) + (t - 2900) = t by ring] at this

/-- Helper: MASTER band as a formula. -/
theorem master_formula (t : Int) (h1 : 2800 ≤ t) (h2 : t < 2900) :
    getTierFromTotalLP t = ⟨"MASTER", "I", t - 2800⟩ := by
  have := master_cases (t - 2800).toNat (by omega)
  rw [Int.toNat_of_nonneg (show (0 : Int) ≤ t - 2800 by omega)] at this
  rwa [show (2800 : Int) + (t - 2800) = t by ring] at this

/-- Helper: the Math.min clamp keeps every returned lp at ≤ 99. -/
theorem tierLoop_lp_le (l : List (String × Int × List (String × Int))) (t : Int) :
    (tierLoop t l).lp ≤ 99 := by
  induction l with
  | nil => norm_num [tierLoop]
  | cons e rest ih =>
      obtain ⟨tier, base, divs⟩ := e
      simp only [tierLoop]
      split
      · split
        · norm_num
        · exact ih
      · exact ih

/-- Claim C5 amended: in the apex tiers too, getTierFromTotalLP clamps the
residual points with Math.min at 99: for every total with apex magnitude the
returned lp is ≤ 99, the division is I, and on the CHALLENGER band the
residual is min (total - 3000) 99 rather than the unclamped total - 3000. -/
theorem C5_apex_clamped (t : Int) (h : 2800 ≤ t) :
    (getTierFromTotalLP t).lp ≤ 99 ∧
    (getTierFromTotalLP t).rank = "I" ∧
    (3000 ≤ t → getTierFromTotalLP t = ⟨"CHALLENGER", "I", min (t - 3000) 99⟩) := by
  refine ⟨tierLoop_lp_le _ t, ?_, fun h3 => chall_formula t h3⟩
  rcases lt_or_ge t 2900 with h1 | h1
  · rw [master_formula t h h1]
  · rcases lt_or_ge t 3000 with h2 | h2
    · rw [gm_formula t h1 h2]
    · rw [chall_formula t h2]

/-- Witness for C5_apex_clamped at total 3500 (raw residual 500). -/
theorem C5_apex_clamped_witness :
    (2800 : Int) ≤ 3500 ∧ (getTierFromTotalLP 3500).lp ≤ 99 ∧
    (getTierFromTotalLP 3500).rank = "I" ∧
    getTierFromTotalLP 3500 = ⟨"CHALLENGER", "I", min (3500 - 3000) 99⟩ :=
  ⟨by decide, (C5_apex_clamped 3500 (by decide)).1, (C5_apex_clamped 3500 (by decide)).2.1,
   (C5_apex_clamped 3500 (by decide)).2.2 (by decide)⟩

/-- Helper: rankLE is reflexive. -/
theorem rankLE_refl (a : RankInfo) : rankLE a a := by
  unfold rankLE; omega

/-- Helper: rankLE is transitive. -/
theorem rankLE_trans {a b c : RankInfo} (h1 : rankLE a b) (h2 : rankLE b c) :
    rankLE a c := by
  unfold rankLE at h1 h2 ⊢; omega

set_option maxRecDepth 40000 in
/-- Helper: one-step monotonicity on totals 0..799. -/
theorem rank_step_chunk0 : ∀ n : Nat, n < 800 →
    rankLE (getTierFromTotalLP (n : Int)) (getTierFromTotalLP ((n : Int) + 1)) := by
  decide

set_option maxRecDepth 40000 in
/-- Helper: one-step monotonicity on totals 800..1599. -/
theorem rank_step_chunk1 : ∀ n : Nat, n < 800 →
    rankLE (getTierFromTotalLP ((n : Int) + 800)) (getTierFromTotalLP ((n : Int) + 801)) := by
  decide

set_option maxRecDepth 40000 in
/-- Helper: one-step monotonicity on totals 1600..2399. -/
theorem rank_step_chunk2 : ∀ n : Nat, n < 800 →
    rankLE (getTierFromTotalLP ((n : Int) + 1600)) (getTierFromTotalLP ((n : Int) + 1601)) := by
  decide

set_option maxRecDepth 40000 in
/-- Helper: one-step monotonicity on totals 2400..3098. -/
theorem rank_step_chunk3 : ∀ n : Nat, n < 699 →
    rankLE (getTierFromTotalLP ((n : Int) + 2400)) (getTierFromTotalLP ((n : Int) + 2401)) := by
  decide

/-- Helper: from 3099 on the result is constantly CHALLENGER I 99. -/
theorem high_99 (t : Int) (h : 3099 ≤ t) :
    getTierFromTotalLP t = ⟨"CHALLENGER", "I", 99⟩ := by
  rw [chall_formula t (by omega), min_eq_right (show (99 : Int) ≤ t - 3000 by omega)]

/-- Helper: one-step monotonicity for every natural total. -/
theorem rank_step_any (n : Nat) :
    rankLE (getTierFromTotalLP (n : Int)) (getTierFromTotalLP ((n : Int) + 1)) := by
  rcases lt_or_ge n 800 with h | h
  · exact rank_step_chunk0 n h
  rcases lt_or_ge n 1600 with h1 | h1
  · have hs := rank_step_chunk1 (n - 800) (by omega)
    have e1 : ((n - 800 : Nat) : Int) + 800 = (n : Int) := by omega
    have e2 : ((n - 800 : Nat) : Int) + 801 = (n : Int) + 1 := by omega
    rwa [e1, e2] at hs
  rcases lt_or_ge n 2400 with h2 | h2
  · have hs := rank_step_chunk2 (n - 1600) (by omega)
    have e1 : ((n - 1600 : Nat) : Int) + 1600 = (n : Int) := by omega
    have e2 : ((n - 1600 : Nat) : Int) + 1601 = (n : Int) + 1 := by omega
    rwa [e1, e2] at hs
  rcases lt_or_ge n 3099 with h3 | h3
  · have hs := rank_step_chunk3 (n - 2400) (by omega)
    have e1 : ((n - 2400 : Nat) : Int) + 2400 = (n : Int) := by omega
    have e2 : ((n - 2400 : Nat) : Int) + 2401 = (n : Int) + 1 := by omega
    rwa [e1, e2] at hs
  · have hA := high_99 (n : Int) (by omega)
    have hB := high_99 ((n : Int) + 1) (by omega)
    rw [hA, hB]
    exact rankLE_refl _

/-- Helper: monotonicity over natural totals. -/
theorem rank_mono_nat (n m : Nat) (h : n ≤ m) :
    rankLE (getTierFromTotalLP (n : Int)) (getTierFromTotalLP (m : Int)) := by
  induction h with
  | refl => exact rankLE_refl _
  | @step k hk ih =>
      refine rankLE_trans ih ?_
      have hs := rank_step_any k
      rwa [show ((k : Int) + 1) = ((k + 1 : Nat) : Int) by push_cast; ring] at hs

/-- Helper: every total below every base falls through to IRON IV 0. -/
theorem tierLoop_no_hit (t : Int) :
    ∀ l : List (String × Int × List (String × Int)),
      (∀ e ∈ l, ¬ t ≥ e.2.1) → tierLoop t l = ⟨"IRON", "IV", 0⟩ := by
  intro l
  induction l with
  | nil => intro _; rfl
  | cons e rest ih =>
      obtain ⟨tier, base, divs⟩ := e
      intro hl
      simp only [tierLoop]
      rw [if_neg (hl _ (List.mem_cons_self _ _))]
      exact ih (fun x hx => hl x (List.mem_cons_of_mem _ hx))

/-- Helper: negative totals clamp to the floor IRON IV 0. -/
theorem getTier_neg (t : Int) (h : t < 0) :
    getTierFromTotalLP t = ⟨"IRON", "IV", 0⟩ := by
  unfold getTierFromTotalLP
  refine tierLoop_no_hit t _ ?_
  intro e he
  have hbase : (0 : Int) ≤ e.2.1 := by
    rw [rank_tiers_rev] at he
    fin_cases he <;> norm_num
  omega

/-- Helper: IRON IV 0 is a rankLE lower bound of every result. -/
theorem rank_bottom (t : Int) : rankLE ⟨"IRON", "IV", 0⟩ (getTierFromTotalLP t) := by
  rcases lt_or_ge t 0 with h | h
  · rw [getTier_neg t h]; exact rankLE_refl _
  · have h0 : getTierFromTotalLP ((0 : Nat) : Int) = ⟨"IRON", "IV", 0⟩ := by decide
    have hm := rank_mono_nat 0 t.toNat (Nat.zero_le _)
    rw [h0] at hm
    rwa [Int.toNat_of_nonneg h] at hm

/-- Claim C9: getTierFromTotalLP is monotone with respect to the
lexicographic (tier, division, points) rank order: a smaller total is never
mapped to a strictly higher rank. -/
theorem C9_fromTotal_monotone (a b : Int) (h : a < b) :
    rankLE (getTierFromTotalLP a) (getTierFromTotalLP b) := by
  rcases lt_or_ge a 0 with ha | ha
  · rw [getTier_neg a ha]; exact rank_bottom b
  · have hb : (0 : Int) ≤ b := by omega
    have hm := rank_mono_nat a.toNat b.toNat (by omega)
    rwa [Int.toNat_of_nonneg ha, Int.toNat_of_nonneg hb] at hm

/-- Witness for C9_fromTotal_monotone at 1440 < 1441. -/
theorem C9_fromTotal_monotone_witness :
    (1440 : Int) < 1441 ∧ rankLE (getTierFromTotalLP 1440) (getTierFromTotalLP 1441) :=
  ⟨by decide, C9_fromTotal_monotone 1440 1441 (by decide)⟩
/-- Claim C4 amended: the match-detail, canvas and image/icon cache readers
perform lazy expiry with a strict now - storedAt < TTL comparison; the
summoner/identity reader still returns an entry aged exactly TTL (its refetch
condition is the strict now - storedAt > TTL); and the session read performed
by handleButton performs no expiry comparison at all — a present session
entry is never treated as expired, whatever its age. -/
theorem C4_lazy_expiry (c : CacheRecord) (now : Int) :
    (matchDetailCacheRead (some c) now =
      if now - c.timestamp < MATCH_DETAIL_TTL then some c.data else none) ∧
    (canvasCacheRead (some c) now =
      if now - c.timestamp < CANVAS_CACHE_TTL then some c.data else none) ∧
    (summonerCacheRead (some c) now =
      if now - c.timestamp ≤ CACHE_TTL then some c.data else none) ∧
    (∀ (imageCache : List (String × CachedImage)) (url : String)
        (fetched : Option String) (img : CachedImage),
      imageCache.lookup url = some img → IMAGE_CACHE_TTL ≤ now - img.timestamp →
      (loadImageWithCache imageCache url now fetched).1 = fetched) ∧
    (∀ (imageCache : List (String × CachedImage)) (url : String)
        (fetched : Option String) (img : CachedImage),
      imageCache.lookup url = some img → now - img.timestamp < IMAGE_CACHE_TTL →
      (loadImageWithCache imageCache url now fetched).1 = some img.image) ∧
    (∀ (cache : List (String × SessionData)) (customId : String) (sd : SessionData),
      cache.lookup (buttonDataKey customId) = some sd →
      (handleButton cache customId now).1 ≠ .sessionExpired) := by
  refine ⟨?_, ?_, ?_, ?_, ?_, ?_⟩
  · rfl
  · rfl
  · show (if now - c.timestamp > CACHE_TTL then none else some c.data) =
        if now - c.timestamp ≤ CACHE_TTL then some c.data else none
    rcases le_or_lt (now - c.timestamp) CACHE_TTL with h | h
    · rw [if_neg (show ¬ now - c.timestamp > CACHE_TTL by omega), if_pos h]
    · rw [if_pos (show now - c.timestamp > CACHE_TTL by omega),
        if_neg (show ¬ now - c.timestamp ≤ CACHE_TTL by omega)]
  · intro imageCache url fetched img hlook hage
    unfold loadImageWithCache
    rw [hlook]
    simp only [if_neg (show ¬ now - img.timestamp < IMAGE_CACHE_TTL by omega)]
    cases fetched <;> rfl
  · intro imageCache url fetched img hlook hage
    unfold loadImageWithCache
    rw [hlook]
    simp only [if_pos hage]
  · intro cache customId sd hlook
    unfold handleButton
    rcases lt_or_ge (splitUnderscore customId).length 3 with h | h
    · rw [if_pos h]
      simp
    · rw [if_neg (by omega), hlook]
      split
      · rename_i heq
        exact Option.noConfusion heq
      · split <;> simp

/-- Witness for C4_lazy_expiry: an hour-old match-detail entry read through
the if-form, an expired image entry replaced by the fresh fetch, and an
hour-old session still served by handleButton. -/
theorem C4_lazy_expiry_witness :
    (matchDetailCacheRead (some ⟨"v", 0⟩) 3600001 =
      if (3600001 : Int) - 0 < MATCH_DETAIL_TTL then some "v" else none) ∧
    (loadImageWithCache [("u", ⟨"img", 0⟩)] "u" 3600001 (some "fresh")).1 = some "fresh" ∧
    (handleButton expiredSessionCache "tft_u_1_next" 3600001).1 ≠ .sessionExpired :=
  ⟨(C4_lazy_expiry ⟨"v", 0⟩ 3600001).1,
   (C4_lazy_expiry ⟨"v", 0⟩ 3600001).2.2.2.1 [("u", ⟨"img", 0⟩)] "u" (some "fresh")
     ⟨"img", 0⟩ (by decide) (by decide),
   (C4_lazy_expiry ⟨"v", 0⟩ 3600001).2.2.2.2.2 expiredSessionCache "tft_u_1_next"
     ⟨["m1", "m2"], 0, 0, "Kuromi"⟩ (by decide)⟩

/-- Claim C7: on a live session, prev decrements and next increments the
cursor; when the new cursor falls outside 0..N-1 the handler answers
noMoreMatches and returns the cache unchanged (no wrap, no clamp, no
mutation); otherwise it navigates to the new cursor and stores the updated
session (cursor moved, TTL clock refreshed). -/
theorem C7_navigate (cache : List (String × SessionData)) (customId : String)
    (now : Int) (sd : SessionData) (dir : Int)
    (hlen : 3 ≤ (splitUnderscore customId).length)
    (hsd : cache.lookup (buttonDataKey customId) = some sd)
    (hdir : (buttonAction customId = "prev" ∧ dir = -1) ∨
            (buttonAction customId = "next" ∧ dir = 1)) :
    (sd.currentIndex + dir < 0 ∨ (sd.matchIds.length : Int) ≤ sd.currentIndex + dir →
      handleButton cache customId now = (.noMoreMatches, cache)) ∧
    (0 ≤ sd.currentIndex + dir → sd.currentIndex + dir < (sd.matchIds.length : Int) →
      handleButton cache customId now =
        (.navigated (sd.currentIndex + dir),
         mapSet cache (buttonDataKey customId)
           { sd with currentIndex := sd.currentIndex + dir, timestamp := now })) := by
  have hnf : newIndexFor (buttonAction customId) sd.currentIndex = sd.currentIndex + dir := by
    rcases hdir with ⟨ha, rfl⟩ | ⟨ha, rfl⟩ <;> (rw [ha]; unfold newIndexFor; simp; try omega)
  have h3 : ¬ (splitUnderscore customId).length < 3 := by omega
  constructor
  · intro hout
    unfold handleButton
    rw [if_neg h3, hsd]
    split
    · rename_i heq
      exact Option.noConfusion heq
    · rename_i sd2 heq
      injection heq with h2
      subst h2
      rw [hnf, if_pos hout]
  · intro hge hlt
    unfold handleButton
    rw [if_neg h3, hsd]
    split
    · rename_i heq
      exact Option.noConfusion heq
    · rename_i sd2 heq
      injection heq with h2
      subst h2
      rw [hnf, if_neg (show ¬ (sd.currentIndex + dir < 0 ∨
        (sd.matchIds.length : Int) ≤ sd.currentIndex + dir) by omega)]

/-- Witness for C7_navigate: previous on a fresh cursor-0 session is refused
with the cache untouched. -/
theorem C7_navigate_witness :
    3 ≤ (splitUnderscore "tft_u_1_prev").length ∧
    navCache0.lookup (buttonDataKey "tft_u_1_prev") =
      some ⟨["m1", "m2", "m3", "m4", "m5"], 0, 1000, "Kuromi"⟩ ∧
    handleButton navCache0 "tft_u_1_prev" 4000 = (.noMoreMatches, navCache0) :=
  ⟨by decide, by decide,
   (C7_navigate navCache0 "tft_u_1_prev" 4000
      ⟨["m1", "m2", "m3", "m4", "m5"], 0, 1000, "Kuromi"⟩ (-1)
      (by decide) (by decide) (Or.inl ⟨by decide, rfl⟩)).1 (by decide)⟩
